import Mathlib

/-!
Verification of the editing/synchronization core of
`apps/builder/contexts/TypebotContext/TypebotContext.tsx`.

The React component is embedded as a big-step state machine: one
`SessionState` record holds the SWR cache (`typebot`, `publishedTypebot`,
`webhooks`), the undo container (`localTypebot` together with `past` and
`future`), the UI flags, the surfaced toasts, a log of issued store writes,
and the contents of the external store (`storedTypebot`,
`storedSnapshots`).  Each handler of the component becomes a function on
`SessionState`; the outcome of every external store call is injected as an
`Option StoreError` argument (`none` = the call succeeded).

The mutable `currentTypebotRef` and the undo container's `present` value
are collapsed into the single field `localTypebot`: the spec states that
the reference always holds the latest working copy at the moment a handler
reads it.
-/

/-- An error returned by the external store (name and message). -/
structure StoreError where
  name : String
  message : String
deriving DecidableEq, Repr

/-- A toast notification surfaced to the user (title and description). -/
structure Toast where
  title : String
  description : String
deriving DecidableEq, Repr

/-- A webhook entity, keyed by id; the remaining data is abstracted. -/
structure Webhook where
  id : String
  body : String
deriving DecidableEq, Repr

/-- The working-copy document.  The content graph, theme and settings are
abstracted to opaque numbers; identity and publication fields are kept. -/
structure Typebot where
  id : String
  name : String
  ownerId : String
  blocks : Nat
  theme : Nat
  settings : Nat
  publicId : Option String
  publishedTypebotId : Option String
deriving DecidableEq, Repr

/-- The published snapshot entity, with its own identity `id` independent
from the document identity `typebotId`. -/
structure PublicTypebot where
  id : String
  typebotId : String
  name : String
  blocks : Nat
  theme : Nat
  settings : Nat
  publicId : Option String
deriving DecidableEq, Repr

/-- The `UpdateTypebotPayload` of the source: a partial record, each field
present (`some`) or absent (`none`). -/
structure UpdateTypebotPayload where
  theme : Option Nat
  settings : Option Nat
  publicId : Option String
  name : Option String
  publishedTypebotId : Option String
deriving DecidableEq, Repr

/-- A write issued against the external store. -/
inductive WriteOp where
  | draft (t : Typebot)
  | createSnapshot (p : PublicTypebot)
  | updateSnapshot (id : String) (p : PublicTypebot)
  | webhookWrite (id : String)
deriving DecidableEq, Repr

/-- Whether a write op is a snapshot creation. -/
def WriteOp.isSnapshotCreate : WriteOp → Bool
  | .createSnapshot _ => true
  | _ => false

/-- The whole session state of the `TypebotContext` component, plus the
external store contents and a log of issued writes. -/
structure SessionState where
  typebot : Option Typebot
  publishedTypebot : Option PublicTypebot
  webhooks : List Webhook
  localTypebot : Option Typebot
  past : List (Option Typebot)
  future : List (Option Typebot)
  isSavingLoading : Bool
  isPublishing : Bool
  unloadGuard : Bool
  toasts : List Toast
  writes : List WriteOp
  storedTypebot : Option Typebot
  storedSnapshots : List PublicTypebot
deriving DecidableEq, Repr

/-- Modelled from the spec: `parseTypebotToPublicTypebot` (in
`services/publicTypebot`, not under `src/`) projects the
publication-relevant fields of a document into a snapshot record; both call
sites override the produced `id`, so it is left empty here. -/
def parseTypebotToPublicTypebot (t : Typebot) : PublicTypebot :=
  { id := ""
    typebotId := t.id
    name := t.name
    blocks := t.blocks
    theme := t.theme
    settings := t.settings
    publicId := t.publicId }

/-- Modelled from the spec: `parsePublicTypebotToTypebot` (in
`services/publicTypebot`, not under `src/`) merges the snapshot's
publication-relevant fields onto the current document's identity and
owner-bound fields, which are never overwritten. -/
def parsePublicTypebotToTypebot (p : PublicTypebot) (t : Typebot) : Typebot :=
  { id := t.id
    name := p.name
    ownerId := t.ownerId
    blocks := p.blocks
    theme := p.theme
    settings := p.settings
    publicId := p.publicId
    publishedTypebotId := t.publishedTypebotId }

/-- Modelled from the spec: `parseDefaultPublicId` (in `services/typebots`,
not under `src/`) derives a public-facing slug from the document's name and
id. -/
def parseDefaultPublicId (name : String) (id : String) : String :=
  (name.map fun c => if c = ' ' then '-' else c) ++ "-" ++ id

/-- Modelled from the spec: `checkIfTypebotsAreEqual` (in
`services/typebots`, not under `src/`) is deep value equality between two
document states. -/
def checkIfTypebotsAreEqual (a b : Typebot) : Bool :=
  a == b

/-- Modelled from the spec: the undo container's `set` (from
`services/utils/useUndo`, not under `src/`) pushes the current value onto
the past stack, replaces the current value, and clears the future stack. -/
def setLocalTypebot (st : SessionState) (v : Option Typebot) : SessionState :=
  { st with past := st.past ++ [st.localTypebot], localTypebot := v, future := [] }

/-- TypeScript object spread `{ ...t, ...u }`: every field present in the
payload replaces the document's field. -/
def applyUpdates (t : Typebot) (u : UpdateTypebotPayload) : Typebot :=
  { t with
    theme := match u.theme with | some x => x | none => t.theme
    settings := match u.settings with | some x => x | none => t.settings
    publicId := match u.publicId with | some x => some x | none => t.publicId
    name := match u.name with | some x => x | none => t.name
    publishedTypebotId :=
      match u.publishedTypebotId with
      | some x => some x
      | none => t.publishedTypebotId }

/-- `updateLocalTypebot` (source line 228): merge the partial payload into
the current working copy and record it in the undo container; silent no-op
when there is no current working copy. -/
def updateLocalTypebot (st : SessionState) (u : UpdateTypebotPayload) : SessionState :=
  match st.localTypebot with
  | none => st
  | some lt => setLocalTypebot st (some (applyUpdates lt u))

/-- `saveTypebot` (source lines 128-141): read the latest working copy from
the mutable reference, return immediately when it deep-equals the SWR
baseline `typebot` or is undefined; otherwise issue the draft write.  On
error, surface a toast and change nothing else; on success, update the SWR
cache (`mutate` with the saved draft and the current webhooks) and remove
the `beforeunload` interception.  `err` injects the outcome of the external
`updateTypebot` call. -/
def saveTypebot (st : SessionState) (err : Option StoreError) : SessionState :=
  let typebotToSave := st.localTypebot
  if st.typebot = typebotToSave then st
  else
    match typebotToSave with
    | none => st
    | some tb =>
      let st1 := { st with isSavingLoading := true, writes := st.writes ++ [WriteOp.draft tb] }
      let st2 := { st1 with isSavingLoading := false }
      match err with
      | some e => { st2 with toasts := st2.toasts ++ [⟨e.name, e.message⟩] }
      | none =>
        { st2 with
          storedTypebot := some tb
          typebot := some tb
          unloadGuard := false }

/-- `savePublishedTypebot` (source lines 143-156): issue the
snapshot-update write under the `isPublishing` flag; on error surface a
toast; on success update the SWR cache with the latest working copy (read
through the mutable reference), the new snapshot, and the current
webhooks. -/
def savePublishedTypebot (st : SessionState) (newPub : PublicTypebot)
    (err : Option StoreError) : SessionState :=
  let st1 := { st with
    isPublishing := true
    writes := st.writes ++ [WriteOp.updateSnapshot newPub.id newPub] }
  let st2 := { st1 with isPublishing := false }
  match err with
  | some e => { st2 with toasts := st2.toasts ++ [⟨e.name, e.message⟩] }
  | none =>
    { st2 with
      storedSnapshots := st2.storedSnapshots.map fun q => if q.id = newPub.id then newPub else q
      typebot := st2.localTypebot
      publishedTypebot := some newPub }

/-- The snapshot-creation tail of `publishTypebot` (source lines 253-266):
issue the create write under the `isPublishing` flag; on error surface a
toast; on success the store gains the snapshot and the SWR cache is updated
with the working copy captured at the start of `publishTypebot`
(`capturedLocal`), the created snapshot, and the current webhooks. -/
def createSnapshotStep (st : SessionState) (capturedLocal : Typebot)
    (p : PublicTypebot) (err : Option StoreError) : SessionState :=
  let st1 := { st with
    isPublishing := true
    writes := st.writes ++ [WriteOp.createSnapshot p] }
  let st2 := { st1 with isPublishing := false }
  match err with
  | some e => { st2 with toasts := st2.toasts ++ [⟨e.name, e.message⟩] }
  | none =>
    { st2 with
      storedSnapshots := st2.storedSnapshots ++ [p]
      typebot := some capturedLocal
      publishedTypebot := some p }

/-- `publishTypebot` (source lines 231-267).  The captured render bindings
`localTypebot` and `publishedTypebot` are constant across the awaits, so
the source's three sequential conditionals on `publishedTypebot` collapse
into one match: when a snapshot exists, optionally attach its identity to
the document and flush, then update the snapshot in place; when none
exists, assign the derived public id and the freshly generated snapshot
identity, flush, then create the snapshot.  `newLocalTypebot` is the
entry-time working copy, patched only with the new public id in the
no-snapshot branch.  `genId` injects `generate()`, `draftErr` the draft
flush outcome, `snapErr` the snapshot write outcome. -/
def publishTypebot (st : SessionState) (genId : String)
    (draftErr : Option StoreError) (snapErr : Option StoreError) : SessionState :=
  match st.localTypebot with
  | none => st
  | some lt =>
    match st.publishedTypebot with
    | some pub =>
      let st1 :=
        if lt.publishedTypebotId = none then
          saveTypebot
            (updateLocalTypebot st ⟨none, none, none, none, some pub.id⟩) draftErr
        else st
      savePublishedTypebot st1
        { parseTypebotToPublicTypebot lt with id := pub.id } snapErr
    | none =>
      let newPublicId := parseDefaultPublicId lt.name lt.id
      let st2 :=
        saveTypebot
          (updateLocalTypebot st ⟨none, none, some newPublicId, none, some genId⟩)
          draftErr
      createSnapshotStep st2 lt
        { parseTypebotToPublicTypebot { lt with publicId := some newPublicId } with
          id := genId }
        snapErr

/-- `restorePublishedTypebot` (source lines 283-287): when both the
snapshot and the working copy exist, replace the working copy by the merged
projection of the snapshot and flush. -/
def restorePublishedTypebot (st : SessionState) (err : Option StoreError) : SessionState :=
  match st.publishedTypebot, st.localTypebot with
  | some pub, some lt =>
    saveTypebot (setLocalTypebot st (some (parsePublicTypebotToTypebot pub lt))) err
  | _, _ => st

/-- `updateWebhook` (source lines 289-303): no-op without a fetched
document; otherwise issue the webhook write; when the store returns data,
merge the returned webhook into the list by identity match, leaving the
document, the snapshot and the history untouched; on failure apply no local
mutation.  `result` injects the external call's returned webhook (`none` =
no data). -/
def updateWebhook (st : SessionState) (webhookId : String)
    (result : Option Webhook) : SessionState :=
  match st.typebot with
  | none => st
  | some _ =>
    let st1 := { st with writes := st.writes ++ [WriteOp.webhookWrite webhookId] }
    match result with
    | none => st1
    | some wh =>
      { st1 with webhooks := st1.webhooks.map fun w => if w.id = webhookId then wh else w }

/-- The unsaved-changes effect (source lines 183-193): after every
working-copy change, when both the working copy and the baseline exist,
compare them; when they differ the `beforeunload` interception is
(re)installed, when they are equal it is removed. -/
def unsavedChangesEffect (st : SessionState) : SessionState :=
  match st.localTypebot, st.typebot with
  | some lt, some tb =>
    if checkIfTypebotsAreEqual lt tb then { st with unloadGuard := false }
    else { st with unloadGuard := true }
  | _, _ => st

/-! ## Concrete sample data used to exercise the operations -/

/-- A sample document in its freshly loaded state. -/
def tbA : Typebot :=
  { id := "t1", name := "bot", ownerId := "o1", blocks := 1, theme := 2,
    settings := 3, publicId := none, publishedTypebotId := none }

/-- The sample document after a local rename. -/
def tbB : Typebot :=
  { tbA with name := "bot2" }

/-- A sample published snapshot of the document `tbA`. -/
def pubA : PublicTypebot :=
  { id := "s1", typebotId := "t1", name := "pub", blocks := 9, theme := 8,
    settings := 7, publicId := some "pid" }

/-- A session in sync: the working copy equals the persisted baseline. -/
def stClean : SessionState :=
  { typebot := some tbA, publishedTypebot := none, webhooks := [],
    localTypebot := some tbA, past := [], future := [],
    isSavingLoading := false, isPublishing := false, unloadGuard := false,
    toasts := [], writes := [], storedTypebot := some tbA, storedSnapshots := [] }

/-- A session with an unflushed local edit. -/
def stDirty : SessionState :=
  { stClean with localTypebot := some tbB, unloadGuard := true }

/-- A session whose document has an existing published snapshot. -/
def stWithPub : SessionState :=
  { stDirty with publishedTypebot := some pubA, storedSnapshots := [pubA] }

/-- A sample store error. -/
def errA : StoreError :=
  { name := "NetworkFailure", message := "offline" }

/-- A sample webhook list with two entries. -/
def whs : List Webhook :=
  [{ id := "w1", body := "a" }, { id := "w2", body := "b" }]

/-! ## Basic lemmas about `saveTypebot` -/

/-- When the working copy deep-equals the baseline, the flush returns
immediately and changes nothing. -/
theorem saveTypebot_of_eq (st : SessionState) (err : Option StoreError)
    (h : st.typebot = st.localTypebot) : saveTypebot st err = st := by
  simp [saveTypebot, h]

/-- When there is no working copy, the flush returns immediately and
changes nothing. -/
theorem saveTypebot_of_none (st : SessionState) (err : Option StoreError)
    (h : st.localTypebot = none) : saveTypebot st err = st := by
  simp [saveTypebot, h]

/-- The successful flush of a diverged working copy, written out. -/
theorem saveTypebot_success (st : SessionState) (tb : Typebot)
    (hl : st.localTypebot = some tb) (hne : st.typebot ≠ st.localTypebot) :
    saveTypebot st none =
      { st with
        isSavingLoading := false
        writes := st.writes ++ [WriteOp.draft tb]
        storedTypebot := some tb
        typebot := some tb
        unloadGuard := false } := by
  rw [hl] at hne
  simp [saveTypebot, hl, hne]

/-- The failed flush of a diverged working copy, written out. -/
theorem saveTypebot_failure (st : SessionState) (tb : Typebot) (e : StoreError)
    (hl : st.localTypebot = some tb) (hne : st.typebot ≠ st.localTypebot) :
    saveTypebot st (some e) =
      { st with
        isSavingLoading := false
        writes := st.writes ++ [WriteOp.draft tb]
        toasts := st.toasts ++ [⟨e.name, e.message⟩] } := by
  rw [hl] at hne
  simp [saveTypebot, hl, hne]

/-! ## Claim theorems -/

/-- Claim C1: flush is idempotent.  When the working copy equals the
persisted baseline, `saveTypebot` performs no write and returns the state
unchanged; and for any state, flushing twice in succession with no
intervening edit equals flushing once, so at most one draft write is
performed in total. -/
theorem flush_idempotent (st : SessionState) (err : Option StoreError) :
    (st.typebot = st.localTypebot →
      saveTypebot st err = st ∧ (saveTypebot st err).writes = st.writes) ∧
    saveTypebot (saveTypebot st none) none = saveTypebot st none ∧
    (saveTypebot (saveTypebot st none) none).writes.length ≤ st.writes.length + 1 := by
  have hsecond : saveTypebot (saveTypebot st none) none = saveTypebot st none := by
    by_cases h : st.typebot = st.localTypebot
    · rw [saveTypebot_of_eq st none h, saveTypebot_of_eq st none h]
    · cases hl : st.localTypebot with
      | none => rw [saveTypebot_of_none st none hl, saveTypebot_of_none st none hl]
      | some tb =>
        rw [saveTypebot_success st tb hl h]
        apply saveTypebot_of_eq
        simp [hl]
  refine ⟨fun h => ⟨saveTypebot_of_eq st err h, by rw [saveTypebot_of_eq st err h]⟩,
    hsecond, ?_⟩
  rw [hsecond]
  by_cases h : st.typebot = st.localTypebot
  · rw [saveTypebot_of_eq st none h]
    omega
  · cases hl : st.localTypebot with
    | none =>
      rw [saveTypebot_of_none st none hl]
      omega
    | some tb =>
      rw [saveTypebot_success st tb hl h]
      simp

/-- Claim C1 witness: on the in-sync sample session the flush is a no-op,
and two successive flushes on the dirty sample session perform one write. -/
theorem flush_idempotent_witness :
    (saveTypebot stClean none = stClean ∧ (saveTypebot stClean none).writes = stClean.writes) ∧
    saveTypebot (saveTypebot stDirty none) none = saveTypebot stDirty none ∧
    (saveTypebot (saveTypebot stDirty none) none).writes.length ≤ stDirty.writes.length + 1 :=
  ⟨(flush_idempotent stClean none).1 rfl,
   (flush_idempotent stDirty none).2.1, (flush_idempotent stDirty none).2.2⟩

/-- Claim C10: when the working-copy reference holds no value, the flush
returns without issuing any storage write and without changing any local
state at all (the state is returned unchanged, so in particular the
saving-in-progress flag is untouched and no draft write is issued). -/
theorem flush_no_working_copy (st : SessionState) (err : Option StoreError)
    (h : st.localTypebot = none) : saveTypebot st err = st :=
  saveTypebot_of_none st err h

/-- Claim C10 witness: a not-yet-loaded session is returned unchanged by
the flush. -/
theorem flush_no_working_copy_witness :
    saveTypebot { stClean with localTypebot := none } (some errA) =
      { stClean with localTypebot := none } :=
  flush_no_working_copy { stClean with localTypebot := none } (some errA) rfl

/-- Claim C9: `updateLocalTypebot` with no current working copy is a silent
no-op: it is a total function (it never throws) and returns the state
unchanged. -/
theorem update_no_document_noop (st : SessionState) (u : UpdateTypebotPayload)
    (h : st.localTypebot = none) : updateLocalTypebot st u = st := by
  simp [updateLocalTypebot, h]

/-- Claim C9 witness: updating the name on a session with no working copy
changes nothing. -/
theorem update_no_document_noop_witness :
    updateLocalTypebot { stClean with localTypebot := none }
      ⟨none, none, none, some "X", none⟩ = { stClean with localTypebot := none } :=
  update_no_document_noop { stClean with localTypebot := none }
    ⟨none, none, none, some "X", none⟩ rfl

/-- Claim C4: flush failure atomicity.  When the draft write fails, a toast
carrying the error's name and message is appended, and the working copy,
the persisted baseline, the external store, the snapshot, the webhooks, the
undo history and the unload guard are all exactly as before the attempted
write. -/
theorem flush_failure_atomic (st : SessionState) (tb : Typebot) (e : StoreError)
    (hl : st.localTypebot = some tb) (hne : st.typebot ≠ st.localTypebot) :
    (saveTypebot st (some e)).toasts = st.toasts ++ [⟨e.name, e.message⟩] ∧
    (saveTypebot st (some e)).localTypebot = st.localTypebot ∧
    (saveTypebot st (some e)).typebot = st.typebot ∧
    (saveTypebot st (some e)).storedTypebot = st.storedTypebot ∧
    (saveTypebot st (some e)).publishedTypebot = st.publishedTypebot ∧
    (saveTypebot st (some e)).storedSnapshots = st.storedSnapshots ∧
    (saveTypebot st (some e)).webhooks = st.webhooks ∧
    (saveTypebot st (some e)).past = st.past ∧
    (saveTypebot st (some e)).future = st.future ∧
    (saveTypebot st (some e)).unloadGuard = st.unloadGuard := by
  rw [saveTypebot_failure st tb e hl hne]
  simp

/-- Claim C4 witness: a failed flush on the dirty sample session surfaces
the error and leaves the working copy and baseline untouched. -/
theorem flush_failure_atomic_witness :
    (saveTypebot stDirty (some errA)).toasts = stDirty.toasts ++ [⟨errA.name, errA.message⟩] ∧
    (saveTypebot stDirty (some errA)).localTypebot = stDirty.localTypebot ∧
    (saveTypebot stDirty (some errA)).typebot = stDirty.typebot ∧
    (saveTypebot stDirty (some errA)).storedTypebot = stDirty.storedTypebot ∧
    (saveTypebot stDirty (some errA)).publishedTypebot = stDirty.publishedTypebot ∧
    (saveTypebot stDirty (some errA)).storedSnapshots = stDirty.storedSnapshots ∧
    (saveTypebot stDirty (some errA)).webhooks = stDirty.webhooks ∧
    (saveTypebot stDirty (some errA)).past = stDirty.past ∧
    (saveTypebot stDirty (some errA)).future = stDirty.future ∧
    (saveTypebot stDirty (some errA)).unloadGuard = stDirty.unloadGuard :=
  flush_failure_atomic stDirty tbB errA rfl (by decide)

/-- Claim C7: divergence detection.  After every working-copy change the
effect compares the working copy to the baseline by deep equality and sets
the unload interception exactly when they differ; and every successful
flush that performs a write removes the interception. -/
theorem divergence_detection (st : SessionState) :
    (∀ lt tb, st.localTypebot = some lt → st.typebot = some tb →
      (unsavedChangesEffect st).unloadGuard = !(checkIfTypebotsAreEqual lt tb)) ∧
    (∀ tb, st.localTypebot = some tb → st.typebot ≠ st.localTypebot →
      (saveTypebot st none).unloadGuard = false) := by
  constructor
  · intro lt tb hl ht
    by_cases h : checkIfTypebotsAreEqual lt tb
    · simp [unsavedChangesEffect, hl, ht, h]
    · simp only [Bool.not_eq_true] at h
      simp [unsavedChangesEffect, hl, ht, h]
  · intro tb hl hne
    rw [saveTypebot_success st tb hl hne]

/-- Claim C7 witness: after a rename the guard on the dirty sample session
reports dirty, on the clean one it reports clean, and a successful flush of
the dirty session removes the interception. -/
theorem divergence_detection_witness :
    (unsavedChangesEffect stDirty).unloadGuard = !(checkIfTypebotsAreEqual tbB tbA) ∧
    (unsavedChangesEffect stClean).unloadGuard = !(checkIfTypebotsAreEqual tbA tbA) ∧
    (saveTypebot stDirty none).unloadGuard = false :=
  ⟨(divergence_detection stDirty).1 tbB tbA rfl rfl,
   (divergence_detection stClean).1 tbA tbA rfl rfl,
   (divergence_detection stDirty).2 tbB rfl (by decide)⟩

/-! ## Frame and unfolding lemmas for the publish flow -/

/-- A flush never changes the working copy, the snapshot cache, the stored
snapshots, the webhooks or the undo history. -/
theorem saveTypebot_frame (st : SessionState) (err : Option StoreError) :
    (saveTypebot st err).localTypebot = st.localTypebot ∧
    (saveTypebot st err).publishedTypebot = st.publishedTypebot ∧
    (saveTypebot st err).storedSnapshots = st.storedSnapshots ∧
    (saveTypebot st err).webhooks = st.webhooks ∧
    (saveTypebot st err).past = st.past ∧
    (saveTypebot st err).future = st.future := by
  by_cases h : st.typebot = st.localTypebot
  · rw [saveTypebot_of_eq st err h]
    exact ⟨rfl, rfl, rfl, rfl, rfl, rfl⟩
  · cases hl : st.localTypebot with
    | none =>
      rw [saveTypebot_of_none st err hl]
      exact ⟨hl, rfl, rfl, rfl, rfl, rfl⟩
    | some tb =>
      cases err with
      | none =>
        rw [saveTypebot_success st tb hl h]
        exact ⟨hl, rfl, rfl, rfl, rfl, rfl⟩
      | some e =>
        rw [saveTypebot_failure st tb e hl h]
        exact ⟨hl, rfl, rfl, rfl, rfl, rfl⟩

/-- A flush issues at most one draft write and nothing else. -/
theorem saveTypebot_writes (st : SessionState) (err : Option StoreError) :
    (saveTypebot st err).writes = st.writes ∨
    ∃ tb, (saveTypebot st err).writes = st.writes ++ [WriteOp.draft tb] := by
  by_cases h : st.typebot = st.localTypebot
  · rw [saveTypebot_of_eq st err h]
    exact Or.inl rfl
  · cases hl : st.localTypebot with
    | none =>
      rw [saveTypebot_of_none st err hl]
      exact Or.inl rfl
    | some tb =>
      cases err with
      | none =>
        rw [saveTypebot_success st tb hl h]
        exact Or.inr ⟨tb, rfl⟩
      | some e =>
        rw [saveTypebot_failure st tb e hl h]
        exact Or.inr ⟨tb, rfl⟩

/-- The successful snapshot-creation tail, written out. -/
theorem createSnapshotStep_success (st : SessionState) (capturedLocal : Typebot)
    (p : PublicTypebot) :
    createSnapshotStep st capturedLocal p none =
      { st with
        isPublishing := false
        writes := st.writes ++ [WriteOp.createSnapshot p]
        storedSnapshots := st.storedSnapshots ++ [p]
        typebot := some capturedLocal
        publishedTypebot := some p } := by
  simp [createSnapshotStep]

/-- The failed snapshot-creation tail, written out. -/
theorem createSnapshotStep_failure (st : SessionState) (capturedLocal : Typebot)
    (p : PublicTypebot) (e : StoreError) :
    createSnapshotStep st capturedLocal p (some e) =
      { st with
        isPublishing := false
        writes := st.writes ++ [WriteOp.createSnapshot p]
        toasts := st.toasts ++ [⟨e.name, e.message⟩] } := by
  simp [createSnapshotStep]

/-- The successful snapshot update, written out. -/
theorem savePublishedTypebot_success (st : SessionState) (newPub : PublicTypebot) :
    savePublishedTypebot st newPub none =
      { st with
        isPublishing := false
        writes := st.writes ++ [WriteOp.updateSnapshot newPub.id newPub]
        storedSnapshots :=
          st.storedSnapshots.map fun q => if q.id = newPub.id then newPub else q
        typebot := st.localTypebot
        publishedTypebot := some newPub } := by
  simp [savePublishedTypebot]

/-- Unfolding of `publishTypebot` when no snapshot exists. -/
theorem publishTypebot_noPub (st : SessionState) (lt : Typebot) (genId : String)
    (draftErr snapErr : Option StoreError)
    (hl : st.localTypebot = some lt) (hp : st.publishedTypebot = none) :
    publishTypebot st genId draftErr snapErr =
      createSnapshotStep
        (saveTypebot
          (updateLocalTypebot st
            ⟨none, none, some (parseDefaultPublicId lt.name lt.id), none, some genId⟩)
          draftErr)
        lt
        { parseTypebotToPublicTypebot
            { lt with publicId := some (parseDefaultPublicId lt.name lt.id) } with
          id := genId }
        snapErr := by
  simp [publishTypebot, hl, hp]

/-- Unfolding of `publishTypebot` when a snapshot exists. -/
theorem publishTypebot_withPub (st : SessionState) (lt : Typebot) (pub : PublicTypebot)
    (genId : String) (draftErr snapErr : Option StoreError)
    (hl : st.localTypebot = some lt) (hp : st.publishedTypebot = some pub) :
    publishTypebot st genId draftErr snapErr =
      savePublishedTypebot
        (if lt.publishedTypebotId = none then
          saveTypebot (updateLocalTypebot st ⟨none, none, none, none, some pub.id⟩) draftErr
        else st)
        { parseTypebotToPublicTypebot lt with id := pub.id }
        snapErr := by
  simp [publishTypebot, hl, hp]

/-- The derived public slug is never the empty string. -/
theorem parseDefaultPublicId_ne_empty (n i : String) : parseDefaultPublicId n i ≠ "" := by
  intro h
  have h2 := congrArg String.length h
  simp [parseDefaultPublicId, String.length_append] at h2
  exact absurd h2.1.2 (by decide)

/-- Claim C2: publish-new.  On a session with no snapshot and no public
identifier, a fully successful `publishTypebot` leaves the working copy
with the non-empty derived slug as `publicId` and the freshly generated
identity as `publishedTypebotId`, and creates in storage a snapshot
carrying that identity whose publication-relevant fields equal the
document's. -/
theorem publish_new (st : SessionState) (lt : Typebot) (genId : String)
    (hl : st.localTypebot = some lt) (hp : st.publishedTypebot = none)
    (hpid : lt.publicId = none) (hgen : genId ≠ "") :
    (publishTypebot st genId none none).localTypebot =
      some { lt with
             publicId := some (parseDefaultPublicId lt.name lt.id)
             publishedTypebotId := some genId } ∧
    parseDefaultPublicId lt.name lt.id ≠ "" ∧
    ∃ p : PublicTypebot,
      (publishTypebot st genId none none).publishedTypebot = some p ∧
      p.id = genId ∧
      p ∈ (publishTypebot st genId none none).storedSnapshots ∧
      WriteOp.createSnapshot p ∈ (publishTypebot st genId none none).writes ∧
      p.typebotId = lt.id ∧ p.name = lt.name ∧ p.blocks = lt.blocks ∧
      p.theme = lt.theme ∧ p.settings = lt.settings ∧
      p.publicId = some (parseDefaultPublicId lt.name lt.id) := by
  rw [publishTypebot_noPub st lt genId none none hl hp]
  rw [createSnapshotStep_success]
  refine ⟨?_, parseDefaultPublicId_ne_empty lt.name lt.id, ?_⟩
  · show (saveTypebot (updateLocalTypebot st
      ⟨none, none, some (parseDefaultPublicId lt.name lt.id), none, some genId⟩)
      none).localTypebot = _
    rw [(saveTypebot_frame _ none).1]
    simp [updateLocalTypebot, hl, setLocalTypebot, applyUpdates]
  · refine ⟨_, rfl, ?_, ?_, ?_, ?_, ?_, ?_, ?_, ?_, ?_⟩ <;>
      simp [parseTypebotToPublicTypebot]

/-- Claim C2 witness: publishing the clean sample session with identity
`snap1`. -/
theorem publish_new_witness :
    (publishTypebot stClean "snap1" none none).localTypebot =
      some { tbA with
             publicId := some (parseDefaultPublicId tbA.name tbA.id)
             publishedTypebotId := some "snap1" } ∧
    parseDefaultPublicId tbA.name tbA.id ≠ "" ∧
    ∃ p : PublicTypebot,
      (publishTypebot stClean "snap1" none none).publishedTypebot = some p ∧
      p.id = "snap1" ∧
      p ∈ (publishTypebot stClean "snap1" none none).storedSnapshots ∧
      WriteOp.createSnapshot p ∈ (publishTypebot stClean "snap1" none none).writes ∧
      p.typebotId = tbA.id ∧ p.name = tbA.name ∧ p.blocks = tbA.blocks ∧
      p.theme = tbA.theme ∧ p.settings = tbA.settings ∧
      p.publicId = some (parseDefaultPublicId tbA.name tbA.id) :=
  publish_new stClean tbA "snap1" rfl rfl rfl (by decide)

/-- Claim C3: publish-update.  With an existing snapshot, `publishTypebot`
updates that same snapshot identity, issues no snapshot-creation write and
does not grow the stored snapshot collection, and leaves the working copy's
`publicId` unchanged. -/
theorem publish_update (st : SessionState) (lt : Typebot) (pub : PublicTypebot)
    (genId : String) (hl : st.localTypebot = some lt)
    (hp : st.publishedTypebot = some pub) :
    (publishTypebot st genId none none).publishedTypebot =
      some { parseTypebotToPublicTypebot lt with id := pub.id } ∧
    (∃ q, WriteOp.updateSnapshot pub.id q ∈ (publishTypebot st genId none none).writes) ∧
    (∃ tail, (publishTypebot st genId none none).writes = st.writes ++ tail ∧
      tail.filter (fun op => op.isSnapshotCreate) = []) ∧
    (publishTypebot st genId none none).storedSnapshots.length =
      st.storedSnapshots.length ∧
    ∃ lt2, (publishTypebot st genId none none).localTypebot = some lt2 ∧
      lt2.publicId = lt.publicId := by
  rw [publishTypebot_withPub st lt pub genId none none hl hp]
  rw [savePublishedTypebot_success]
  by_cases hb : lt.publishedTypebotId = none
  · rw [if_pos hb]
    have hU : (updateLocalTypebot st ⟨none, none, none, none, some pub.id⟩).localTypebot =
        some { lt with publishedTypebotId := some pub.id } := by
      simp [updateLocalTypebot, hl, setLocalTypebot, applyUpdates]
    have hframe := saveTypebot_frame (updateLocalTypebot st ⟨none, none, none, none, some pub.id⟩) none
    have hwrites := saveTypebot_writes (updateLocalTypebot st ⟨none, none, none, none, some pub.id⟩) none
    have hUw : (updateLocalTypebot st ⟨none, none, none, none, some pub.id⟩).writes = st.writes := by
      simp [updateLocalTypebot, hl, setLocalTypebot]
    have hUs : (updateLocalTypebot st ⟨none, none, none, none, some pub.id⟩).storedSnapshots =
        st.storedSnapshots := by
      simp [updateLocalTypebot, hl, setLocalTypebot]
    refine ⟨by simp,
      ⟨{ parseTypebotToPublicTypebot lt with id := pub.id }, by simp⟩,
      ?_, by simp [hframe.2.2.1, hUs], ?_⟩
    · rcases hwrites with hw | ⟨tb, hw⟩
      · exact ⟨[WriteOp.updateSnapshot pub.id { parseTypebotToPublicTypebot lt with id := pub.id }],
          by simp [hw, hUw], by simp [WriteOp.isSnapshotCreate]⟩
      · exact ⟨[WriteOp.draft tb,
          WriteOp.updateSnapshot pub.id { parseTypebotToPublicTypebot lt with id := pub.id }],
          by simp [hw, hUw], by simp [WriteOp.isSnapshotCreate]⟩
    · refine ⟨{ lt with publishedTypebotId := some pub.id }, ?_, rfl⟩
      show (saveTypebot _ none).localTypebot = _
      rw [hframe.1, hU]
  · rw [if_neg hb]
    refine ⟨by simp,
      ⟨{ parseTypebotToPublicTypebot lt with id := pub.id }, by simp⟩,
      ⟨[WriteOp.updateSnapshot pub.id { parseTypebotToPublicTypebot lt with id := pub.id }],
        by simp, by simp [WriteOp.isSnapshotCreate]⟩,
      by simp, ⟨lt, by simp [hl], rfl⟩⟩

/-- Claim C3 witness: publishing the sample session that already has the
snapshot `s1`. -/
theorem publish_update_witness :
    (publishTypebot stWithPub "gen2" none none).publishedTypebot =
      some { parseTypebotToPublicTypebot tbB with id := pubA.id } ∧
    (∃ q, WriteOp.updateSnapshot pubA.id q ∈ (publishTypebot stWithPub "gen2" none none).writes) ∧
    (∃ tail, (publishTypebot stWithPub "gen2" none none).writes = stWithPub.writes ++ tail ∧
      tail.filter (fun op => op.isSnapshotCreate) = []) ∧
    (publishTypebot stWithPub "gen2" none none).storedSnapshots.length =
      stWithPub.storedSnapshots.length ∧
    ∃ lt2, (publishTypebot stWithPub "gen2" none none).localTypebot = some lt2 ∧
      lt2.publicId = tbB.publicId :=
  publish_update stWithPub tbB pubA "gen2" rfl rfl

/-- Claim C5: restore.  With a snapshot and a working copy edited since the
last publish, `restorePublishedTypebot` replaces the working copy by the
snapshot's projection — publication-relevant fields from the snapshot,
identity and owner-bound fields preserved — and flushes it: the baseline
catches up, and whenever the baseline differed a draft write of the
restored copy is issued. -/
theorem restore_published (st : SessionState) (pub : PublicTypebot) (lt : Typebot)
    (hp : st.publishedTypebot = some pub) (hl : st.localTypebot = some lt)
    (hedit : lt ≠ parsePublicTypebotToTypebot pub lt) :
    (restorePublishedTypebot st none).localTypebot =
      some (parsePublicTypebotToTypebot pub lt) ∧
    (parsePublicTypebotToTypebot pub lt).name = pub.name ∧
    (parsePublicTypebotToTypebot pub lt).blocks = pub.blocks ∧
    (parsePublicTypebotToTypebot pub lt).theme = pub.theme ∧
    (parsePublicTypebotToTypebot pub lt).settings = pub.settings ∧
    (parsePublicTypebotToTypebot pub lt).publicId = pub.publicId ∧
    (parsePublicTypebotToTypebot pub lt).id = lt.id ∧
    (parsePublicTypebotToTypebot pub lt).ownerId = lt.ownerId ∧
    (parsePublicTypebotToTypebot pub lt).publishedTypebotId = lt.publishedTypebotId ∧
    (restorePublishedTypebot st none).typebot =
      some (parsePublicTypebotToTypebot pub lt) ∧
    (st.typebot ≠ some (parsePublicTypebotToTypebot pub lt) →
      (restorePublishedTypebot st none).storedTypebot =
        some (parsePublicTypebotToTypebot pub lt) ∧
      WriteOp.draft (parsePublicTypebotToTypebot pub lt) ∈
        (restorePublishedTypebot st none).writes) := by
  have hunf : restorePublishedTypebot st none =
      saveTypebot (setLocalTypebot st (some (parsePublicTypebotToTypebot pub lt))) none := by
    simp [restorePublishedTypebot, hp, hl]
  have hUl : (setLocalTypebot st (some (parsePublicTypebotToTypebot pub lt))).localTypebot =
      some (parsePublicTypebotToTypebot pub lt) := rfl
  rw [hunf]
  refine ⟨((saveTypebot_frame _ none).1).trans hUl, rfl, rfl, rfl, rfl, rfl, rfl, rfl, rfl,
    ?_, ?_⟩
  · by_cases hc : st.typebot = some (parsePublicTypebotToTypebot pub lt)
    · rw [saveTypebot_of_eq (setLocalTypebot st (some (parsePublicTypebotToTypebot pub lt)))
        none (show _ = _ from hc)]
      exact hc
    · rw [saveTypebot_success (setLocalTypebot st (some (parsePublicTypebotToTypebot pub lt)))
        (parsePublicTypebotToTypebot pub lt) hUl (show ¬_ = _ from hc)]
  · intro hne
    rw [saveTypebot_success (setLocalTypebot st (some (parsePublicTypebotToTypebot pub lt)))
      (parsePublicTypebotToTypebot pub lt) hUl (show ¬_ = _ from hne)]
    exact ⟨rfl, by simp⟩

/-- Claim C5 witness: restoring the sample session whose working copy was
renamed after the snapshot `s1` was published. -/
theorem restore_published_witness :
    (restorePublishedTypebot stWithPub none).localTypebot =
      some (parsePublicTypebotToTypebot pubA tbB) ∧
    (parsePublicTypebotToTypebot pubA tbB).name = pubA.name ∧
    (parsePublicTypebotToTypebot pubA tbB).blocks = pubA.blocks ∧
    (parsePublicTypebotToTypebot pubA tbB).theme = pubA.theme ∧
    (parsePublicTypebotToTypebot pubA tbB).settings = pubA.settings ∧
    (parsePublicTypebotToTypebot pubA tbB).publicId = pubA.publicId ∧
    (parsePublicTypebotToTypebot pubA tbB).id = tbB.id ∧
    (parsePublicTypebotToTypebot pubA tbB).ownerId = tbB.ownerId ∧
    (parsePublicTypebotToTypebot pubA tbB).publishedTypebotId = tbB.publishedTypebotId ∧
    (restorePublishedTypebot stWithPub none).typebot =
      some (parsePublicTypebotToTypebot pubA tbB) ∧
    (stWithPub.typebot ≠ some (parsePublicTypebotToTypebot pubA tbB) →
      (restorePublishedTypebot stWithPub none).storedTypebot =
        some (parsePublicTypebotToTypebot pubA tbB) ∧
      WriteOp.draft (parsePublicTypebotToTypebot pubA tbB) ∈
        (restorePublishedTypebot stWithPub none).writes) :=
  restore_published stWithPub pubA tbB rfl rfl (by decide)

/-- Claim C8: webhook-update frame property.  `updateWebhook` never changes
the document (cached or local), the undo history, the snapshot, the store
or the toasts; the webhook list keeps its length, every entry whose id
differs from the given id is unchanged at its position, and on store
failure the webhook list is unchanged as well. -/
theorem webhook_update_frame (st : SessionState) (wid : String) (r : Option Webhook) :
    (updateWebhook st wid r).typebot = st.typebot ∧
    (updateWebhook st wid r).localTypebot = st.localTypebot ∧
    (updateWebhook st wid r).past = st.past ∧
    (updateWebhook st wid r).future = st.future ∧
    (updateWebhook st wid r).publishedTypebot = st.publishedTypebot ∧
    (updateWebhook st wid r).storedTypebot = st.storedTypebot ∧
    (updateWebhook st wid r).storedSnapshots = st.storedSnapshots ∧
    (updateWebhook st wid r).toasts = st.toasts ∧
    (updateWebhook st wid r).webhooks.length = st.webhooks.length ∧
    (∀ (i : Nat) (h1 : i < st.webhooks.length)
        (h2 : i < (updateWebhook st wid r).webhooks.length),
      (st.webhooks.get ⟨i, h1⟩).id ≠ wid →
        (updateWebhook st wid r).webhooks.get ⟨i, h2⟩ = st.webhooks.get ⟨i, h1⟩) ∧
    (r = none → (updateWebhook st wid r).webhooks = st.webhooks) := by
  cases ht : st.typebot with
  | none => simp [updateWebhook, ht]
  | some tb =>
    cases r with
    | none => simp [updateWebhook, ht]
    | some wh =>
      have hw : updateWebhook st wid (some wh) =
          { st with
            writes := st.writes ++ [WriteOp.webhookWrite wid]
            webhooks := st.webhooks.map fun w => if w.id = wid then wh else w } := by
        simp [updateWebhook, ht]
      rw [hw]
      refine ⟨ht, rfl, rfl, rfl, rfl, rfl, rfl, rfl, by simp, ?_, by simp⟩
      intro i h1 h2 hid
      rw [List.get_eq_getElem] at hid
      simp [List.get_eq_getElem, List.getElem_map]
      intro hcontra
      exact absurd hcontra hid

/-- Claim C8 witness: updating webhook `w1` in a session with two webhooks
leaves the entry `w2`, the document and the history untouched. -/
theorem webhook_update_frame_witness :
    (updateWebhook { stClean with webhooks := whs } "w1" (some ⟨"w1", "c"⟩)).typebot =
      { stClean with webhooks := whs }.typebot ∧
    (updateWebhook { stClean with webhooks := whs } "w1" (some ⟨"w1", "c"⟩)).localTypebot =
      { stClean with webhooks := whs }.localTypebot ∧
    (updateWebhook { stClean with webhooks := whs } "w1" (some ⟨"w1", "c"⟩)).past =
      { stClean with webhooks := whs }.past ∧
    (updateWebhook { stClean with webhooks := whs } "w1" (some ⟨"w1", "c"⟩)).future =
      { stClean with webhooks := whs }.future ∧
    (updateWebhook { stClean with webhooks := whs } "w1" (some ⟨"w1", "c"⟩)).publishedTypebot =
      { stClean with webhooks := whs }.publishedTypebot ∧
    (updateWebhook { stClean with webhooks := whs } "w1" (some ⟨"w1", "c"⟩)).storedTypebot =
      { stClean with webhooks := whs }.storedTypebot ∧
    (updateWebhook { stClean with webhooks := whs } "w1" (some ⟨"w1", "c"⟩)).storedSnapshots =
      { stClean with webhooks := whs }.storedSnapshots ∧
    (updateWebhook { stClean with webhooks := whs } "w1" (some ⟨"w1", "c"⟩)).toasts =
      { stClean with webhooks := whs }.toasts ∧
    (updateWebhook { stClean with webhooks := whs } "w1" (some ⟨"w1", "c"⟩)).webhooks.length =
      { stClean with webhooks := whs }.webhooks.length ∧
    (∀ (i : Nat) (h1 : i < { stClean with webhooks := whs }.webhooks.length)
        (h2 : i < (updateWebhook { stClean with webhooks := whs } "w1"
          (some ⟨"w1", "c"⟩)).webhooks.length),
      ({ stClean with webhooks := whs }.webhooks.get ⟨i, h1⟩).id ≠ "w1" →
        (updateWebhook { stClean with webhooks := whs } "w1"
          (some ⟨"w1", "c"⟩)).webhooks.get ⟨i, h2⟩ =
          { stClean with webhooks := whs }.webhooks.get ⟨i, h1⟩) ∧
    (some (⟨"w1", "c"⟩ : Webhook) = none →
      (updateWebhook { stClean with webhooks := whs } "w1" (some ⟨"w1", "c"⟩)).webhooks =
        { stClean with webhooks := whs }.webhooks) :=
  webhook_update_frame { stClean with webhooks := whs } "w1" (some ⟨"w1", "c"⟩)

/-- Claim C6 counterexample: publishing the clean sample session with a
fresh identity while the snapshot-creation write fails leaves both the
working copy and the persisted draft referencing the snapshot identity
`snap2`, while no snapshot with that identity (or any snapshot at all)
exists in storage — so a reachable state violates the stated invariant. -/
theorem snapshot_identity_cex :
    (publishTypebot stClean "snap2" none (some errA)).storedTypebot.bind
      Typebot.publishedTypebotId = some "snap2" ∧
    (publishTypebot stClean "snap2" none (some errA)).localTypebot.bind
      Typebot.publishedTypebotId = some "snap2" ∧
    (publishTypebot stClean "snap2" none (some errA)).storedSnapshots = [] ∧
    (publishTypebot stClean "snap2" none (some errA)).publishedTypebot = none := by
  decide

/-- Claim C6 amended: when every external write of a first publish
succeeds, the invariant is established — the working copy's
`publishedTypebotId` names the freshly created snapshot, which exists in
storage; the invariant does not hold in every reachable state, because a
failed snapshot creation after the draft flush leaves the document
referencing an identity absent from storage. -/
theorem snapshot_identity_amended (st : SessionState) (lt : Typebot) (genId : String)
    (hl : st.localTypebot = some lt) (hp : st.publishedTypebot = none) :
    (publishTypebot st genId none none).localTypebot.bind
      Typebot.publishedTypebotId = some genId ∧
    ∃ p : PublicTypebot,
      (publishTypebot st genId none none).publishedTypebot = some p ∧
      p.id = genId ∧
      p ∈ (publishTypebot st genId none none).storedSnapshots := by
  rw [publishTypebot_noPub st lt genId none none hl hp, createSnapshotStep_success]
  constructor
  · show ((saveTypebot (updateLocalTypebot st
      ⟨none, none, some (parseDefaultPublicId lt.name lt.id), none, some genId⟩)
      none).localTypebot.bind Typebot.publishedTypebotId) = _
    rw [(saveTypebot_frame _ none).1]
    simp [updateLocalTypebot, hl, setLocalTypebot, applyUpdates]
  · exact ⟨_, rfl, rfl, by simp⟩

/-- Claim C6 amended witness: a fully successful first publish of the dirty
sample session establishes the mirror. -/
theorem snapshot_identity_amended_witness :
    (publishTypebot stDirty "snap3" none none).localTypebot.bind
      Typebot.publishedTypebotId = some "snap3" ∧
    ∃ p : PublicTypebot,
      (publishTypebot stDirty "snap3" none none).publishedTypebot = some p ∧
      p.id = "snap3" ∧
      p ∈ (publishTypebot stDirty "snap3" none none).storedSnapshots :=
  snapshot_identity_amended stDirty tbB "snap3" rfl rfl
